import Mathlib

/-!
Shallow embedding of the libgdsii GDSII reader/writer (Python) and proofs
about its record codec, numeric codec, object model and flattening
algorithm.

Conventions used throughout:
* A byte stream is a `List Nat`, each entry one byte (0–255).
* Python `float` values are modelled as exact rationals (`ℚ`).  Every
  concrete value evaluated in the theorems below is a dyadic rational at
  which all the IEEE-754 double operations performed by the source are
  exact, so the rational model and the floating-point code agree there.
* Python functions that can raise are modelled in the `Except` monad.
-/

instance {ε α : Type} [DecidableEq ε] [DecidableEq α] : DecidableEq (Except ε α) := fun x y =>
  match x, y with
  | .ok a, .ok b =>
      if h : a = b then .isTrue (by rw [h]) else .isFalse (by simp [h])
  | .error a, .error b =>
      if h : a = b then .isTrue (by rw [h]) else .isFalse (by simp [h])
  | .ok _, .error _ => .isFalse (by simp)
  | .error _, .ok _ => .isFalse (by simp)

/-- Big-endian unsigned 16-bit value of two bytes (struct format ">H"). -/
def u16FromBytes (b0 b1 : Nat) : Nat := 256 * b0 + b1

/-- Big-endian signed 16-bit value of two bytes (struct format ">h"). -/
def i16FromBytes (b0 b1 : Nat) : ℤ :=
  let n := 256 * b0 + b1
  if n < 32768 then (n : ℤ) else (n : ℤ) - 65536

/-- Big-endian signed 32-bit value of four bytes (struct format ">l" / ">i"). -/
def i32FromBytes (b0 b1 b2 b3 : Nat) : ℤ :=
  let n := 256 * (256 * (256 * b0 + b1) + b2) + b3
  if n < 2147483648 then (n : ℤ) else (n : ℤ) - 4294967296

/-- Big-endian byte representation of `n` on `width` bytes
(struct formats ">H", ">Q", ... for an in-range value). -/
def natToBytesBE (width n : Nat) : List Nat :=
  (List.range width).map (fun i => n / 256 ^ (width - 1 - i) % 256)

/-- Interpret a list of bytes as a big-endian unsigned integer. -/
def bytesToNatBE (bs : List Nat) : Nat :=
  bs.foldl (fun acc b => 256 * acc + b) 0

/-- Python `str.rstrip("\0")` on the byte level: drop trailing NUL bytes. -/
def dropTrailingZeros (bs : List Nat) : List Nat :=
  (bs.reverse.dropWhile (fun b => b = 0)).reverse

/-- Python `bytes.decode("ascii")`: succeeds iff every byte is < 128
(otherwise `UnicodeDecodeError`).  Returns the decoded string. -/
def asciiDecode (bs : List Nat) : Option String :=
  if bs.all (fun b => b < 128) then
    some (String.mk (bs.map Char.ofNat))
  else none

/-!
## Numeric codec (src/libgdsii/utils.py)

`eight_byte_real_to_float` and `float_to_eight_byte_real` convert between
the GDSII 8-byte excess-64 base-16 real format and doubles.  Doubles are
modelled as exact rationals.
-/

/-- Errors raised by the codec / parser, mirroring the Python exception
taxonomy of src/libgdsii/exceptions.py plus the built-in exceptions the
code can raise (`struct.error`, `ValueError`, `StopIteration`). -/
inductive GdsError where
  /-- `exceptions.UnknownRecordException` raised by `RecordType._missing_`,
  carrying the offending record-type tag value. -/
  | unknownRecordType (tag : Nat)
  /-- `exceptions.UnexpectedRecordException(expected, actual)`. -/
  | unexpectedRecord (expected actual : Nat)
  /-- `exceptions.MissingRecordException(expected, actual)`. -/
  | missingRecord (expected actual : Nat)
  /-- `struct.error`: wrong payload length for an unpack, or a value out of
  range for a pack. -/
  | structError
  /-- Python `ValueError` (bad enum member, invalid date, non-ASCII byte). -/
  | valueError
  /-- `StopIteration` escaping `Reader.__next__` at end of stream. -/
  | stopIteration
  /-- Modelling artifact only: the fuel of a parsing loop ran out.  Every
  loop iteration consumes at least 4 bytes of the stream, so fuel
  `stream.length + 1` can never exhaust; Python has no such case. -/
  | fuelExhausted
deriving DecidableEq

/-!
The standard rational operations `Rat.mul`, `Rat.add`, `Rat.sub` and
`Rat.inv` are `@[irreducible]` in Batteries, so the kernel cannot evaluate
terms built from them.  The codec below therefore computes with the
following kernel-executable versions, each proved equal to the standard
operation (`qmul_eq_mul`, `qdiv_eq_div`, `qpow16_eq_zpow` in the theorem
section), so that general theorems can still be stated and proved with the
ordinary field structure of `ℚ`.
-/

/-- Multiplication on `ℚ`, kernel-executable; equal to `a * b`. -/
def qmul (a b : ℚ) : ℚ := Rat.divInt (a.num * b.num) (a.den * b.den)

/-- Division on `ℚ`, kernel-executable; equal to `a / b`. -/
def qdiv (a b : ℚ) : ℚ := Rat.divInt (a.num * b.den) (a.den * b.num)

/-- Integer powers of 16 in `ℚ`, kernel-executable; equal to
`(16 : ℚ) ^ k`. -/
def qpow16 : ℤ → ℚ
  | .ofNat n => Rat.divInt (16 ^ n) 1
  | .negSucc n => Rat.divInt 1 (16 ^ (n + 1))

/-- `utils.eight_byte_real_to_float` (src/libgdsii/utils.py lines 18–47).
Byte 0 carries the sign (bit 7) and an excess-64 base-16 exponent
(bits 0–6); bytes 1–7 are a 56-bit big-endian mantissa scaled by `2 ^ -56`.
The result is `sgn * mantissa * 16 ^ (exponent - 64)`.
`struct.unpack(">B7x", value)` demands exactly 8 bytes, hence the length
check.  All arithmetic is exact here except the final float rounding of
`mantissa * 2 ** -56`, which is exact whenever the mantissa has at most 53
significant bits — true at every input these theorems evaluate. -/
def eight_byte_real_to_float (value : List Nat) : Except GdsError ℚ :=
  match value with
  | [e0, m1, m2, m3, m4, m5, m6, m7] =>
    let sgn : ℚ := if 128 ≤ e0 then -1 else 1
    let exponent : ℤ := (e0 % 128 : ℤ) - 64
    let mantissa : ℚ := Rat.divInt (bytesToNatBE [m1, m2, m3, m4, m5, m6, m7] : ℤ) (2 ^ 56)
    .ok (qmul (qmul sgn mantissa) (qpow16 exponent))
  | _ => .error .structError

/-- Fuel-driven upward scan for the least `k ≥ start` with `q ≤ 16 ^ k`. -/
def clog16From : Nat → ℚ → ℤ → ℤ
  | 0, _, k => k
  | fuel + 1, q, k => if q ≤ qpow16 k then k else clog16From fuel q (k + 1)

/-- Number of base-16 digits of `n` (fuel-driven so that the kernel can
evaluate it); for `n ≥ 1` this is `⌊log₁₆ n⌋ + 1`. -/
def digits16Aux : Nat → Nat → Nat
  | 0, _ => 1
  | fuel + 1, n => if n < 16 then 1 else digits16Aux fuel (n / 16) + 1

def digits16 (n : Nat) : Nat := digits16Aux n n

/-- Exact value of `int(np.ceil(np.log2(q) / 4))` for a positive rational:
the least `k : ℤ` with `q ≤ 16 ^ k`.  The scan starts strictly below any
solution (`16 ^ (-(digits16 den + 1)) < 1 / den ≤ q`) and carries enough
fuel to reach one.  `np.log2` computes in floating point and could in
principle round across an integer boundary; at every value evaluated in
this file `log2` is exact, so the exact ceiling is the faithful model. -/
def ceilLog16 (q : ℚ) : ℤ :=
  clog16From (digits16 q.num.natAbs + digits16 q.den + 4) q (-(digits16 q.den : ℤ) - 1)

/-- Python `e &= ~(1 << 7)` on a (possibly negative) int: two's-complement
clearing of bit 7, i.e. `e - 128 * (⌊e / 128⌋ mod 2)`.  On `ℤ` the
operators `/` and `%` round toward negative infinity for the positive
divisors used here, matching Python. -/
def clearBit7 (e : ℤ) : ℤ := e - 128 * (e / 128 % 2)

/-- `struct.pack(">B", n)`: one byte; raises unless `0 ≤ n ≤ 255`. -/
def packU8 (n : ℤ) : Except GdsError (List Nat) :=
  if 0 ≤ n ∧ n ≤ 255 then .ok [n.toNat] else .error .structError

/-- `struct.pack(">Q", n)`: eight big-endian bytes; raises unless
`0 ≤ n < 2 ^ 64`. -/
def packU64 (n : ℤ) : Except GdsError (List Nat) :=
  if 0 ≤ n ∧ n < 2 ^ 64 then .ok (natToBytesBE 8 n.toNat) else .error .structError

/-- `utils.float_to_eight_byte_real` (src/libgdsii/utils.py lines 50–84).
Zero maps to eight zero bytes.  Otherwise the exponent is
`int(np.ceil(np.log2(|v|) / 4))` (modelled exactly by `ceilLog16`), the
mantissa is `|v| / 16 ^ exponent * 2 ^ 56` truncated to an integer
(`int(...)`, = floor for the positive values occurring here), and the
result is the packed exponent byte followed by the low 7 bytes of the
packed 8-byte mantissa (`mantissa_packed[1:]`). -/
def float_to_eight_byte_real (value : ℚ) : Except GdsError (List Nat) := do
  if value = 0 then
    .ok (natToBytesBE 8 0)
  else
    let sgn : Bool := value < 0
    let v : ℚ := if value < 0 then -value else value
    let exponent : ℤ := ceilLog16 v
    let mantissa : ℚ := qdiv v (qpow16 exponent)
    let exponent : ℤ := exponent + 64
    let mantissa : ℚ := qmul mantissa (Rat.divInt (2 ^ 56) 1)
    let exponent : ℤ := clearBit7 exponent
    let exponent : ℤ := if sgn then exponent + 128 else exponent
    let exponent_packed ← packU8 exponent
    let mantissa_packed ← packU64 ⌊mantissa⌋
    .ok (exponent_packed ++ mantissa_packed.drop 1)

/-- The IEEE-754 double written `0.001` in the source (the double nearest
to 1/1000), as an exact rational: `0x10624DD2F1A9FC * 2 ^ -62`. -/
def double001 : ℚ := Rat.divInt 0x10624DD2F1A9FC (2 ^ 62)

/-!
## Record types and the stream cursor
(src/libgdsii/gdstypes.py, src/libgdsii/library.py `Reader`)

Record types are modelled by their tag byte together with the
closed-enumeration membership test below; `RecordType(value)` in Python
raises `UnknownRecordException(value)` for any value outside the table
(`RecordType._missing_`, src/libgdsii/gdstypes.py lines 74–76).  Data-type
tags are an *open* enumeration in the source (`DataType._missing_` creates
a pseudo-member and only warns), so they are modelled as plain numbers.
-/

/- Tag values of `gdstypes.RecordType`, one abbreviation per member. -/
namespace RT

abbrev HEADER : Nat := 0x00
abbrev BGNLIB : Nat := 0x01
abbrev LIBNAME : Nat := 0x02
abbrev UNITS : Nat := 0x03
abbrev ENDLIB : Nat := 0x04
abbrev BGNSTR : Nat := 0x05
abbrev STRNAME : Nat := 0x06
abbrev ENDSTR : Nat := 0x07
abbrev BOUNDARY : Nat := 0x08
abbrev PATH : Nat := 0x09
abbrev SREF : Nat := 0x0A
abbrev AREF : Nat := 0x0B
abbrev TEXT : Nat := 0x0C
abbrev LAYER : Nat := 0x0D
abbrev DATATYPE : Nat := 0x0E
abbrev WIDTH : Nat := 0x0F
abbrev XY : Nat := 0x10
abbrev ENDEL : Nat := 0x11
abbrev SNAME : Nat := 0x12
abbrev COLROW : Nat := 0x13
abbrev NODE : Nat := 0x15
abbrev TEXTTYPE : Nat := 0x16
abbrev PRESENTATION : Nat := 0x17
abbrev STRING : Nat := 0x19
abbrev STRANS : Nat := 0x1A
abbrev MAG : Nat := 0x1B
abbrev ANGLE : Nat := 0x1C
abbrev REFLIBS : Nat := 0x1F
abbrev FONTS : Nat := 0x20
abbrev PATHTYPE : Nat := 0x21
abbrev GENERATIONS : Nat := 0x22
abbrev ATTRTABLE : Nat := 0x23
abbrev ELFLAGS : Nat := 0x26
abbrev NODETYPE : Nat := 0x2A
abbrev PROPATTR : Nat := 0x2B
abbrev PROPVALUE : Nat := 0x2C
abbrev BOX : Nat := 0x2D
abbrev BOXTYPE : Nat := 0x2E
abbrev PLEX : Nat := 0x2F
abbrev BGNEXTN : Nat := 0x30
abbrev ENDEXTN : Nat := 0x31
abbrev STRCLASS : Nat := 0x34
abbrev FORMAT : Nat := 0x36
abbrev LIBDIRSIZE : Nat := 0x39
abbrev SRFNAME : Nat := 0x3A
abbrev LIBSECUR : Nat := 0x3B
abbrev RAITHCIRCLE : Nat := 0x56

end RT

/-- Membership in the closed `RecordType` enumeration: the contiguous
tags 0x00–0x3B plus the Raith vendor tag 0x56. -/
def isKnownRecordType (tag : Nat) : Bool :=
  tag ≤ 0x3B || tag = RT.RAITHCIRCLE

/-- `library.RawRecord`: one decoded wire frame. -/
structure RawRecord where
  record_type : Nat
  data_type : Nat
  data : List Nat
deriving DecidableEq

/-- `Reader.__next__` (src/libgdsii/library.py lines 1596–1610).  Reads the
4-byte header `u16 total_len | u8 record_type | u8 data_type`, validates
the record-type tag against the closed enumeration (raising
`UnknownRecordException` otherwise), and consumes `total_len - 4` payload
bytes.  An empty stream raises `StopIteration`; a 1–3 byte remainder makes
`struct.unpack` fail.  Python `stream.read(n)` returns at most `n` bytes
and for negative `n` (a frame with `total_len < 4`) reads to end of
stream. -/
def readNext : List Nat → Except GdsError (RawRecord × List Nat)
  | [] => .error .stopIteration
  | [_] | [_, _] | [_, _, _] => .error .structError
  | b0 :: b1 :: b2 :: b3 :: rest =>
    let record_size := u16FromBytes b0 b1
    let data_size : ℤ := (record_size : ℤ) - 4
    if isKnownRecordType b2 then
      let data := if data_size < 0 then rest else rest.take data_size.toNat
      let remaining := if data_size < 0 then [] else rest.drop data_size.toNat
      .ok (⟨b2, b3, data⟩, remaining)
    else
      .error (.unknownRecordType b2)

/-- `Record._check` (src/libgdsii/records.py lines 42–51): raises
`UnexpectedRecordException` when the record-type tag differs from the
class expectation.  A differing data-type tag only emits a non-fatal
`DatatypeMismatchWarning`, which the model drops. -/
def checkRecord (expected : Nat) (r : RawRecord) : Except GdsError Unit :=
  if r.record_type = expected then .ok () else .error (.unexpectedRecord expected r.record_type)

/-!
## STRANS record codec (src/libgdsii/records.py lines 496–528)
-/

/-- Payload of a `STRANS` record: the three transformation bit flags. -/
structure STRANSrec where
  reflect_about_x : Bool
  absolute_magnification : Bool
  absolute_angle : Bool
deriving DecidableEq

/-- `STRANS.read`: unpacks the 2-byte big-endian flag word and extracts
bit 14 (reflection), bit 1 (absolute magnification) and bit 0 (absolute
angle). -/
def STRANSread (r : RawRecord) : Except GdsError STRANSrec := do
  let _ ← checkRecord RT.STRANS r
  match r.data with
  | [d0, d1] =>
    let d := u16FromBytes d0 d1
    .ok ⟨d.testBit 14, d.testBit 1, d.testBit 0⟩
  | _ => .error .structError

/-- Number a Python `int(b)` of a bool. -/
def pyInt (b : Bool) : Nat := if b then 1 else 0

/-- `struct.pack(">H", n)`: two big-endian bytes; raises unless
`0 ≤ n ≤ 65535`. -/
def packU16 (n : Nat) : Except GdsError (List Nat) :=
  if n ≤ 65535 then .ok (natToBytesBE 2 n) else .error .structError

/-- `STRANS.pack` (src/libgdsii/records.py lines 526–528).  The source
computes

`flags = int(self.absolute_angle) + int(self.absolute_magnification) << 1 + int(self.reflect_about_x) << 14`

and Python's `+` binds tighter than `<<`, so this evaluates as
`((aa + am) <<< (1 + rx)) <<< 14` — *not* the bitwise OR of the three
flag positions that `STRANS.read` extracts. -/
def STRANSpack (t : STRANSrec) : Except GdsError (List Nat) :=
  packU16 (((pyInt t.absolute_angle + pyInt t.absolute_magnification)
      <<< (1 + pyInt t.reflect_about_x)) <<< 14)

/-- `Record.write` (src/libgdsii/records.py lines 32–40): emits the 4-byte
header `len(data) + 4 | record_type | data_type` followed by the packed
payload. -/
def recordWrite (record_type data_type : Nat) (data : List Nat) : List Nat :=
  natToBytesBE 2 (data.length + 4) ++ [record_type, data_type] ++ data

/- Data-type tag values (`gdstypes.DataType`) used by the records
modelled here. -/
namespace DT

abbrev NO_DATA_PRESENT : Nat := 0
abbrev BIT_ARRAY : Nat := 1
abbrev TWO_BYTE_SIGNED_INTEGER : Nat := 2
abbrev FOUR_BYTE_SIGNED_INTEGER : Nat := 3
abbrev EIGHT_BYTE_REAL : Nat := 5
abbrev ASCII_STRING : Nat := 6

end DT

/-- `STRANS.write`: full frame written back for a `STRANS` record
(header with the class data type `BIT_ARRAY`, then the packed flags). -/
def STRANSwrite (t : STRANSrec) : Except GdsError (List Nat) := do
  let data ← STRANSpack t
  .ok (recordWrite RT.STRANS DT.BIT_ARRAY data)

/-!
## Record payload parsers (src/libgdsii/records.py)

Each `read` validates the record-type tag (`Record._check`) and then
unpacks the payload under the class layout.  `struct.unpack` demands the
exact payload length, hence the length-sensitive pattern matches.
-/

/-- `gdstypes.Version`: the closed enumeration of known format versions. -/
inductive Version where
  | LESS_THAN_THREE | THREE | FOUR | FIVE | SIX | SEVEN
deriving DecidableEq

/-- `Version(value)` lookup; raises `ValueError` outside
{0, 3, 4, 5, 600, 7}. -/
def versionOfInt : ℤ → Option Version
  | 0 => some .LESS_THAN_THREE
  | 3 => some .THREE
  | 4 => some .FOUR
  | 5 => some .FIVE
  | 600 => some .SIX
  | 7 => some .SEVEN
  | _ => none

/-- `HEADER.read`: 2-byte signed version number, then `Version(data)`. -/
def HEADERread (r : RawRecord) : Except GdsError Version := do
  let _ ← checkRecord RT.HEADER r
  match r.data with
  | [b0, b1] =>
    match versionOfInt (i16FromBytes b0 b1) with
    | some v => .ok v
    | none => .error .valueError
  | _ => .error .structError

/-- `utils.DateTime`: a `datetime.datetime` subclass; six fields. -/
structure DateTime where
  year : ℤ
  month : ℤ
  day : ℤ
  hour : ℤ
  minute : ℤ
  second : ℤ
deriving DecidableEq

/-- Gregorian leap-year rule used by `datetime`. -/
def isLeapYear (y : ℤ) : Bool := (y % 4 = 0 && y % 100 ≠ 0) || y % 400 = 0

/-- Length of a month as validated by `datetime.datetime`. -/
def daysInMonth (y m : ℤ) : ℤ :=
  if m = 2 then (if isLeapYear y then 29 else 28)
  else if m = 4 || m = 6 || m = 9 || m = 11 then 30
  else 31

/-- `datetime.datetime(year, month, day, hour, minute, second)`: validates
all fields (`MINYEAR = 1`, `MAXYEAR = 9999`) and raises `ValueError` on a
bad date or time. -/
def mkDateTime (y mo d h mi s : ℤ) : Except GdsError DateTime :=
  if 1 ≤ y && y ≤ 9999 && 1 ≤ mo && mo ≤ 12 && 1 ≤ d && d ≤ daysInMonth y mo
      && 0 ≤ h && h ≤ 23 && 0 ≤ mi && mi ≤ 59 && 0 ≤ s && s ≤ 59 then
    .ok ⟨y, mo, d, h, mi, s⟩
  else .error .valueError

/-- Shared body of `BGNLIB.read` and `BGNSTR.read`: payload is exactly 24
bytes, `">6h12x"` giving the modification date and `">12x6h"` the access
date. -/
def datesFromBytes (data : List Nat) : Except GdsError (DateTime × DateTime) :=
  match data with
  | [y0, y1, mo0, mo1, d0, d1, h0, h1, mi0, mi1, s0, s1,
     y2, y3, mo2, mo3, d2, d3, h2, h3, mi2, mi3, s2, s3] => do
    let modDate ← mkDateTime (i16FromBytes y0 y1) (i16FromBytes mo0 mo1)
        (i16FromBytes d0 d1) (i16FromBytes h0 h1) (i16FromBytes mi0 mi1) (i16FromBytes s0 s1)
    let accDate ← mkDateTime (i16FromBytes y2 y3) (i16FromBytes mo2 mo3)
        (i16FromBytes d2 d3) (i16FromBytes h2 h3) (i16FromBytes mi2 mi3) (i16FromBytes s2 s3)
    .ok (modDate, accDate)
  | _ => .error .structError

/-- `BGNLIB.read`. -/
def BGNLIBread (r : RawRecord) : Except GdsError (DateTime × DateTime) := do
  let _ ← checkRecord RT.BGNLIB r
  datesFromBytes r.data

/-- `BGNSTR.read`. -/
def BGNSTRread (r : RawRecord) : Except GdsError (DateTime × DateTime) := do
  let _ ← checkRecord RT.BGNSTR r
  datesFromBytes r.data

/-- Shared body of the string-record reads (`LIBNAME`, `STRNAME`,
`SNAME`, `STRING`, `PROPVALUE`): ASCII-decode the payload
(`UnicodeDecodeError` → `ValueError`-class failure on a byte ≥ 128) and
strip trailing NULs (`rstrip("\0")`). -/
def stringFromBytes (data : List Nat) : Except GdsError String :=
  match asciiDecode (dropTrailingZeros data) with
  | some s => .ok s
  | none => .error .valueError

/-- `LIBNAME.read`. -/
def LIBNAMEread (r : RawRecord) : Except GdsError String := do
  let _ ← checkRecord RT.LIBNAME r
  stringFromBytes r.data

/-- `STRNAME.read`. -/
def STRNAMEread (r : RawRecord) : Except GdsError String := do
  let _ ← checkRecord RT.STRNAME r
  stringFromBytes r.data

/-- `SNAME.read`. -/
def SNAMEread (r : RawRecord) : Except GdsError String := do
  let _ ← checkRecord RT.SNAME r
  stringFromBytes r.data

/-- `STRING.read`. -/
def STRINGread (r : RawRecord) : Except GdsError String := do
  let _ ← checkRecord RT.STRING r
  stringFromBytes r.data

/-- `PROPVALUE.read`. -/
def PROPVALUEread (r : RawRecord) : Except GdsError String := do
  let _ ← checkRecord RT.PROPVALUE r
  stringFromBytes r.data

/-- `UNITS.read`: `eight_byte_real_to_float` on `data[:8]` and
`data[8:]`. -/
def UNITSread (r : RawRecord) : Except GdsError (ℚ × ℚ) := do
  let _ ← checkRecord RT.UNITS r
  let logical ← eight_byte_real_to_float (r.data.take 8)
  let physical ← eight_byte_real_to_float (r.data.drop 8)
  .ok (logical, physical)

/-- Shared body of the 2-byte signed-integer reads (`struct.unpack(">h")`). -/
def i16FromData (data : List Nat) : Except GdsError ℤ :=
  match data with
  | [b0, b1] => .ok (i16FromBytes b0 b1)
  | _ => .error .structError

/-- Shared body of the 4-byte signed-integer reads (`struct.unpack(">i")`). -/
def i32FromData (data : List Nat) : Except GdsError ℤ :=
  match data with
  | [b0, b1, b2, b3] => .ok (i32FromBytes b0 b1 b2 b3)
  | _ => .error .structError

/-- `LAYER.read`. -/
def LAYERread (r : RawRecord) : Except GdsError ℤ := do
  let _ ← checkRecord RT.LAYER r
  i16FromData r.data

/-- `DATATYPE.read`: the 2-byte value is passed to `gdstypes.DataType`,
an *open* enumeration (`_missing_` builds a pseudo-member and only warns),
so any value is accepted and kept. -/
def DATATYPEread (r : RawRecord) : Except GdsError ℤ := do
  let _ ← checkRecord RT.DATATYPE r
  i16FromData r.data

/-- `TEXTTYPE.read`. -/
def TEXTTYPEread (r : RawRecord) : Except GdsError ℤ := do
  let _ ← checkRecord RT.TEXTTYPE r
  i16FromData r.data

/-- `NODETYPE.read`. -/
def NODETYPEread (r : RawRecord) : Except GdsError ℤ := do
  let _ ← checkRecord RT.NODETYPE r
  i16FromData r.data

/-- `BOXTYPE.read`. -/
def BOXTYPEread (r : RawRecord) : Except GdsError ℤ := do
  let _ ← checkRecord RT.BOXTYPE r
  i16FromData r.data

/-- `PATHTYPE.read`. -/
def PATHTYPEread (r : RawRecord) : Except GdsError ℤ := do
  let _ ← checkRecord RT.PATHTYPE r
  i16FromData r.data

/-- `PROPATTR.read`. -/
def PROPATTRread (r : RawRecord) : Except GdsError ℤ := do
  let _ ← checkRecord RT.PROPATTR r
  i16FromData r.data

/-- `WIDTH.read`. -/
def WIDTHread (r : RawRecord) : Except GdsError ℤ := do
  let _ ← checkRecord RT.WIDTH r
  i32FromData r.data

/-- `PLEX.read`. -/
def PLEXread (r : RawRecord) : Except GdsError ℤ := do
  let _ ← checkRecord RT.PLEX r
  i32FromData r.data

/-- Payload of an `ELFLAGS` record. -/
structure ELFLAGSrec where
  template_data : Bool
  external_data : Bool
deriving DecidableEq

/-- `ELFLAGS.read`: 2-byte flag word, bit 0 is template data and bit 1
external data. -/
def ELFLAGSread (r : RawRecord) : Except GdsError ELFLAGSrec := do
  let _ ← checkRecord RT.ELFLAGS r
  match r.data with
  | [b0, b1] =>
    let d := u16FromBytes b0 b1
    .ok ⟨d.testBit 0, d.testBit 1⟩
  | _ => .error .structError

/-- Payload of a `PRESENTATION` record, keeping the numeric values the
source stores into the `Font` / alignment enumerations. -/
structure PRESENTATIONrec where
  font : Nat
  vertical_alignment : Nat
  horizontal_alignment : Nat
deriving DecidableEq

/-- `PRESENTATION.read`.  The source computes
`data & (1 << 5) + data & (1 << 4)` (and analogues); Python `+` binds
tighter than `&`, so each field is `data &&& ((1 <<< hi) + data) &&& (1 <<< lo)`.
The resulting values always lie inside the respective closed enumerations
({0,16} ⊆ Font, {0,4} ⊆ vertical, {0,1} ⊆ horizontal), so the enum
constructors never raise; the lookups are modelled by the range checks. -/
def PRESENTATIONread (r : RawRecord) : Except GdsError PRESENTATIONrec := do
  let _ ← checkRecord RT.PRESENTATION r
  match r.data with
  | [b0, b1] =>
    let d := u16FromBytes b0 b1
    let font := d &&& ((1 <<< 5) + d) &&& (1 <<< 4)
    let vert := d &&& ((1 <<< 3) + d) &&& (1 <<< 2)
    let horiz := d &&& ((1 <<< 1) + d) &&& (1 <<< 0)
    if (font = 0 || font = 16 || font = 32 || font = 48)
        && (vert = 0 || vert = 4 || vert = 8)
        && (horiz = 0 || horiz = 1 || horiz = 2) then
      .ok ⟨font, vert, horiz⟩
    else .error .valueError
  | _ => .error .structError

/-- `MAG.read`: an 8-byte real. -/
def MAGread (r : RawRecord) : Except GdsError ℚ := do
  let _ ← checkRecord RT.MAG r
  eight_byte_real_to_float r.data

/-- `ANGLE.read`: an 8-byte real. -/
def ANGLEread (r : RawRecord) : Except GdsError ℚ := do
  let _ ← checkRecord RT.ANGLE r
  eight_byte_real_to_float r.data

/-- `COLROW.read`: `struct.unpack(">hh")`, columns first, then rows. -/
def COLROWread (r : RawRecord) : Except GdsError (ℤ × ℤ) := do
  let _ ← checkRecord RT.COLROW r
  match r.data with
  | [c0, c1, r0, r1] => .ok (i16FromBytes c0 c1, i16FromBytes r0 r1)
  | _ => .error .structError

/-- Coordinate pairs of an `XY` payload: `size // 8` chunks of two 4-byte
signed integers; a partial trailing chunk is ignored by the `range`
bound. -/
def xyPairs : List Nat → (List ℤ × List ℤ)
  | b0 :: b1 :: b2 :: b3 :: b4 :: b5 :: b6 :: b7 :: rest =>
    let (xs, ys) := xyPairs rest
    (i32FromBytes b0 b1 b2 b3 :: xs, i32FromBytes b4 b5 b6 b7 :: ys)
  | _ => ([], [])

/-- `XY.read`. -/
def XYread (r : RawRecord) : Except GdsError (List ℤ × List ℤ) := do
  let _ ← checkRecord RT.XY r
  .ok (xyPairs r.data)

/-- Marker-record reads (`SimpleRecord.read`): tag check only. -/
def markerRead (expected : Nat) (r : RawRecord) : Except GdsError Unit :=
  checkRecord expected r

/-!
## Structural object model (src/libgdsii/library.py)

Each element class keeps its records as fields; optional records are
`Option`s defaulting to `none` (the Python classes use class-level `None`
defaults probed with `try/except AttributeError`).  The per-element list
of property records (`PROPATTR` / `PROPVALUE` pairs appended to the
element, which subclasses Python `list`) is the `props` field.
-/

/-- One property record appended to an element by
`Element._read_properties`. -/
inductive PropRecord where
  | attr (number : ℤ)
  | value (text : String)
deriving DecidableEq

/-- `StructureTransformationElement`: `STRANS [MAG] [ANGLE]`. -/
structure StructureTransformation where
  strans : STRANSrec
  mag : Option ℚ := none
  angle : Option ℚ := none
deriving DecidableEq

/-- `BoundaryElement`: `BOUNDARY [ELFLAGS] [PLEX] LAYER DATATYPE XY`. -/
structure BoundaryElement where
  elflags : Option ELFLAGSrec := none
  plex : Option ℤ := none
  layer : ℤ
  datatype : ℤ
  x : List ℤ
  y : List ℤ
  props : List PropRecord := []
deriving DecidableEq

/-- `PathElement`:
`PATH [ELFLAGS] [PLEX] LAYER DATATYPE [PATHTYPE] [WIDTH] [BGNEXTN] [ENDEXTN] XY`
(the two extension records are skipped with a warning and never stored). -/
structure PathElement where
  elflags : Option ELFLAGSrec := none
  plex : Option ℤ := none
  layer : ℤ
  datatype : ℤ
  pathtype : Option ℤ := none
  width : Option ℤ := none
  x : List ℤ
  y : List ℤ
  props : List PropRecord := []
deriving DecidableEq

/-- `StructureReferenceElement`: `SREF [ELFLAGS] [PLEX] SNAME [<strans>] XY`. -/
structure SrefElement where
  elflags : Option ELFLAGSrec := none
  plex : Option ℤ := none
  sname : String
  strans : Option StructureTransformation := none
  x : List ℤ
  y : List ℤ
  props : List PropRecord := []
deriving DecidableEq

/-- `ArrayReferenceElement`:
`AREF [ELFLAGS] [PLEX] SNAME [<strans>] COLROW XY`. -/
structure ArefElement where
  elflags : Option ELFLAGSrec := none
  plex : Option ℤ := none
  sname : String
  strans : Option StructureTransformation := none
  n_cols : ℤ
  n_rows : ℤ
  x : List ℤ
  y : List ℤ
  props : List PropRecord := []
deriving DecidableEq

/-- `TextElement.TextBody`:
`TEXTTYPE [DATATYPE] [PRESENTATION] [PATHTYPE] [WIDTH] [<strans>] XY STRING`. -/
structure TextBody where
  texttype : ℤ
  datatype : Option ℤ := none
  presentation : Option PRESENTATIONrec := none
  pathtype : Option ℤ := none
  width : Option ℤ := none
  strans : Option StructureTransformation := none
  x : List ℤ
  y : List ℤ
  text : String
deriving DecidableEq

/-- `TextElement`: `TEXT [ELFLAGS] [PLEX] LAYER <textbody>`. -/
structure TextElement where
  elflags : Option ELFLAGSrec := none
  plex : Option ℤ := none
  layer : ℤ
  body : TextBody
  props : List PropRecord := []
deriving DecidableEq

/-- `NodeElement`: `NODE [ELFLAGS] [PLEX] LAYER NODETYPE XY`. -/
structure NodeElement where
  elflags : Option ELFLAGSrec := none
  plex : Option ℤ := none
  layer : ℤ
  nodetype : ℤ
  x : List ℤ
  y : List ℤ
  props : List PropRecord := []
deriving DecidableEq

/-- `BoxElement`: `BOX [ELFLAGS] [PLEX] LAYER BOXTYPE XY`. -/
structure BoxElement where
  elflags : Option ELFLAGSrec := none
  plex : Option ℤ := none
  layer : ℤ
  boxtype : ℤ
  x : List ℤ
  y : List ℤ
  props : List PropRecord := []
deriving DecidableEq

/-- `RaithCircleElement`: `RAITHCIRCLE LAYER DATATYPE [WIDTH] XY`. -/
structure RaithCircleElement where
  layer : ℤ
  datatype : ℤ
  width : Option ℤ := none
  x : List ℤ
  y : List ℤ
  props : List PropRecord := []
deriving DecidableEq

/-- The closed variant set of elements a `Structure` can contain. -/
inductive Element where
  | boundary (b : BoundaryElement)
  | path (p : PathElement)
  | sref (r : SrefElement)
  | aref (a : ArefElement)
  | text (t : TextElement)
  | node (n : NodeElement)
  | box (b : BoxElement)
  | raithCircle (c : RaithCircleElement)
deriving DecidableEq

/-- `library.Structure`: a named, timestamped ordered list of elements. -/
structure Structure where
  mod_date : DateTime
  acc_date : DateTime
  name : String
  elements : List Element
deriving DecidableEq

/-- `library.Library`: an ordered dictionary of structures keyed by name,
plus the header metadata records. -/
structure Library where
  version : Version
  mod_date : DateTime
  acc_date : DateTime
  name : String
  logical_unit : ℚ
  physical_unit : ℚ
  structures : List (String × Structure)
deriving DecidableEq

/-- `OrderedDict.__setitem__`: replace in place when the key exists,
append otherwise (insertion order preserved). -/
def odInsert (k : String) (v : Structure) (l : List (String × Structure)) :
    List (String × Structure) :=
  if l.any (fun p => p.1 = k) then
    l.map (fun p => if p.1 = k then (k, v) else p)
  else l ++ [(k, v)]

/-- Ordered-dictionary lookup (`lib[name]`, `KeyError` when absent). -/
def odLookup (l : List (String × Structure)) (k : String) : Option Structure :=
  match l.find? (fun p => p.1 = k) with
  | some p => some p.2
  | none => none

/-!
## Element readers (src/libgdsii/library.py)

Each reader receives the marker record already consumed by the dispatch
loop (`reader.current`) plus the remaining stream, and returns the element
with the stream after its `ENDEL`.  The optional-record idiom

`record = reader.read_next(); if record.record_type is X: ...; record = reader.read_next()`

becomes a helper returning the possibly-updated `(field, record, stream)`.
-/

/-- Optional leading `ELFLAGS` record of an element. -/
def readOptELFLAGS (r : RawRecord) (s : List Nat) :
    Except GdsError (Option ELFLAGSrec × RawRecord × List Nat) :=
  if r.record_type = RT.ELFLAGS then do
    let e ← ELFLAGSread r
    let (r2, s2) ← readNext s
    .ok (some e, r2, s2)
  else .ok (none, r, s)

/-- Optional leading `PLEX` record of an element. -/
def readOptPLEX (r : RawRecord) (s : List Nat) :
    Except GdsError (Option ℤ × RawRecord × List Nat) :=
  if r.record_type = RT.PLEX then do
    let e ← PLEXread r
    let (r2, s2) ← readNext s
    .ok (some e, r2, s2)
  else .ok (none, r, s)

/-- `Element._read_properties` (src/libgdsii/library.py lines 347–356):
consume `PROPATTR` / `PROPVALUE` pairs until `ENDEL`.  A record of any
other type raises `MissingRecordException(ENDEL, actual)`; end of stream
ends the `for` loop silently (the element then simply has no `_ENDEL`). -/
def readProperties : Nat → List Nat → Except GdsError (List PropRecord × List Nat)
  | 0, _ => .error .fuelExhausted
  | fuel + 1, s =>
    match readNext s with
    | .error .stopIteration => .ok ([], [])
    | .error e => .error e
    | .ok (record, s) =>
      if record.record_type = RT.PROPATTR then do
        let a ← PROPATTRread record
        let (r2, s) ← readNext s
        let v ← PROPVALUEread r2
        let (rest, s) ← readProperties fuel s
        .ok (.attr a :: .value v :: rest, s)
      else if record.record_type = RT.ENDEL then do
        let _ ← markerRead RT.ENDEL record
        .ok ([], s)
      else .error (.missingRecord RT.ENDEL record.record_type)

/-- `BoundaryElement.read` (src/libgdsii/library.py lines 421–442). -/
def readBoundaryElement (cur : RawRecord) (s : List Nat) :
    Except GdsError (BoundaryElement × List Nat) := do
  let _ ← markerRead RT.BOUNDARY cur
  let (r, s) ← readNext s
  let (elflags, r, s) ← readOptELFLAGS r s
  let (plex, r, s) ← readOptPLEX r s
  let layer ← LAYERread r
  let (r, s) ← readNext s
  let datatype ← DATATYPEread r
  let (r, s) ← readNext s
  let (xs, ys) ← XYread r
  let (props, s) ← readProperties (s.length + 1) s
  .ok ({ elflags, plex, layer, datatype, x := xs, y := ys, props }, s)

/-- `PathElement.read` (src/libgdsii/library.py lines 572–611). -/
def readPathElement (cur : RawRecord) (s : List Nat) :
    Except GdsError (PathElement × List Nat) := do
  let _ ← markerRead RT.PATH cur
  let (r, s) ← readNext s
  let (elflags, r, s) ← readOptELFLAGS r s
  let (plex, r, s) ← readOptPLEX r s
  let layer ← LAYERread r
  let (r, s) ← readNext s
  let datatype ← DATATYPEread r
  let (r, s) ← readNext s
  let (pathtype, r, s) ←
    if r.record_type = RT.PATHTYPE then do
      let v ← PATHTYPEread r
      let (r2, s2) ← readNext s
      pure (some v, r2, s2)
    else pure (none, r, s)
  let (width, r, s) ←
    if r.record_type = RT.WIDTH then do
      let v ← WIDTHread r
      let (r2, s2) ← readNext s
      pure (some v, r2, s2)
    else pure (none, r, s)
  let (r, s) ←
    if r.record_type = RT.BGNEXTN then readNext s
    else pure (r, s)
  let (r, s) ←
    if r.record_type = RT.ENDEXTN then readNext s
    else pure (r, s)
  let (xs, ys) ← XYread r
  let (props, s) ← readProperties (s.length + 1) s
  .ok ({ elflags, plex, layer, datatype, pathtype, width, x := xs, y := ys, props }, s)

/-- `StructureTransformationElement.read`
(src/libgdsii/library.py lines 1558–1573): `STRANS [MAG] [ANGLE]`.
Returns the transformation together with the record left in
`reader.current` for the caller. -/
def readStransGroup (cur : RawRecord) (s : List Nat) :
    Except GdsError (StructureTransformation × RawRecord × List Nat) := do
  let flags ← STRANSread cur
  let (r, s) ← readNext s
  let (mag, r, s) ←
    if r.record_type = RT.MAG then do
      let m ← MAGread r
      let (r2, s2) ← readNext s
      pure (some m, r2, s2)
    else pure (none, r, s)
  let (angle, r, s) ←
    if r.record_type = RT.ANGLE then do
      let a ← ANGLEread r
      let (r2, s2) ← readNext s
      pure (some a, r2, s2)
    else pure (none, r, s)
  .ok (⟨flags, mag, angle⟩, r, s)

/-- `StructureReferenceElement.read` (src/libgdsii/library.py
lines 868–893). -/
def readSrefElement (cur : RawRecord) (s : List Nat) :
    Except GdsError (SrefElement × List Nat) := do
  let _ ← markerRead RT.SREF cur
  let (r, s) ← readNext s
  let (elflags, r, s) ← readOptELFLAGS r s
  let (plex, r, s) ← readOptPLEX r s
  let sname ← SNAMEread r
  let (r, s) ← readNext s
  let (strans, r, s) ←
    if r.record_type = RT.STRANS then do
      let (t, r2, s2) ← readStransGroup r s
      pure (some t, r2, s2)
    else pure (none, r, s)
  let (xs, ys) ← XYread r
  let (props, s) ← readProperties (s.length + 1) s
  .ok ({ elflags, plex, sname, strans, x := xs, y := ys, props }, s)

/-- `ArrayReferenceElement.read` (src/libgdsii/library.py
lines 975–1001). -/
def readArefElement (cur : RawRecord) (s : List Nat) :
    Except GdsError (ArefElement × List Nat) := do
  let _ ← markerRead RT.AREF cur
  let (r, s) ← readNext s
  let (elflags, r, s) ← readOptELFLAGS r s
  let (plex, r, s) ← readOptPLEX r s
  let sname ← SNAMEread r
  let (r, s) ← readNext s
  let (strans, r, s) ←
    if r.record_type = RT.STRANS then do
      let (t, r2, s2) ← readStransGroup r s
      pure (some t, r2, s2)
    else pure (none, r, s)
  let (n_cols, n_rows) ← COLROWread r
  let (r, s) ← readNext s
  let (xs, ys) ← XYread r
  let (props, s) ← readProperties (s.length + 1) s
  .ok ({ elflags, plex, sname, strans, n_cols, n_rows, x := xs, y := ys, props }, s)

/-- `TextElement.TextBody.read` (src/libgdsii/library.py
lines 1192–1222). -/
def readTextBody (s : List Nat) : Except GdsError (TextBody × List Nat) := do
  let (r, s) ← readNext s
  let texttype ← TEXTTYPEread r
  let (r, s) ← readNext s
  let (datatype, r, s) ←
    if r.record_type = RT.DATATYPE then do
      let v ← DATATYPEread r
      let (r2, s2) ← readNext s
      pure (some v, r2, s2)
    else pure (none, r, s)
  let (presentation, r, s) ←
    if r.record_type = RT.PRESENTATION then do
      let v ← PRESENTATIONread r
      let (r2, s2) ← readNext s
      pure (some v, r2, s2)
    else pure (none, r, s)
  let (pathtype, r, s) ←
    if r.record_type = RT.PATHTYPE then do
      let v ← PATHTYPEread r
      let (r2, s2) ← readNext s
      pure (some v, r2, s2)
    else pure (none, r, s)
  let (width, r, s) ←
    if r.record_type = RT.WIDTH then do
      let v ← WIDTHread r
      let (r2, s2) ← readNext s
      pure (some v, r2, s2)
    else pure (none, r, s)
  let (strans, r, s) ←
    if r.record_type = RT.STRANS then do
      let (t, r2, s2) ← readStransGroup r s
      pure (some t, r2, s2)
    else pure (none, r, s)
  let (xs, ys) ← XYread r
  let (r, s) ← readNext s
  let text ← STRINGread r
  .ok ({ texttype, datatype, presentation, pathtype, width, strans,
         x := xs, y := ys, text }, s)

/-- `TextElement.read` (src/libgdsii/library.py lines 1233–1253). -/
def readTextElement (cur : RawRecord) (s : List Nat) :
    Except GdsError (TextElement × List Nat) := do
  let _ ← markerRead RT.TEXT cur
  let (r, s) ← readNext s
  let (elflags, r, s) ← readOptELFLAGS r s
  let (plex, r, s) ← readOptPLEX r s
  let layer ← LAYERread r
  let (body, s) ← readTextBody s
  let (props, s) ← readProperties (s.length + 1) s
  .ok ({ elflags, plex, layer, body, props }, s)

/-- `NodeElement.read` (src/libgdsii/library.py lines 1350–1371). -/
def readNodeElement (cur : RawRecord) (s : List Nat) :
    Except GdsError (NodeElement × List Nat) := do
  let _ ← markerRead RT.NODE cur
  let (r, s) ← readNext s
  let (elflags, r, s) ← readOptELFLAGS r s
  let (plex, r, s) ← readOptPLEX r s
  let layer ← LAYERread r
  let (r, s) ← readNext s
  let nodetype ← NODETYPEread r
  let (r, s) ← readNext s
  let (xs, ys) ← XYread r
  let (props, s) ← readProperties (s.length + 1) s
  .ok ({ elflags, plex, layer, nodetype, x := xs, y := ys, props }, s)

/-- `BoxElement.read` (src/libgdsii/library.py lines 1434–1455). -/
def readBoxElement (cur : RawRecord) (s : List Nat) :
    Except GdsError (BoxElement × List Nat) := do
  let _ ← markerRead RT.BOX cur
  let (r, s) ← readNext s
  let (elflags, r, s) ← readOptELFLAGS r s
  let (plex, r, s) ← readOptPLEX r s
  let layer ← LAYERread r
  let (r, s) ← readNext s
  let boxtype ← BOXTYPEread r
  let (r, s) ← readNext s
  let (xs, ys) ← XYread r
  let (props, s) ← readProperties (s.length + 1) s
  .ok ({ elflags, plex, layer, boxtype, x := xs, y := ys, props }, s)

/-- `RaithCircleElement.read` (src/libgdsii/library.py lines 757–784);
the `ELFLAGS` / `PLEX` options are commented out in the source. -/
def readRaithCircleElement (cur : RawRecord) (s : List Nat) :
    Except GdsError (RaithCircleElement × List Nat) := do
  let _ ← markerRead RT.RAITHCIRCLE cur
  let (r, s) ← readNext s
  let layer ← LAYERread r
  let (r, s) ← readNext s
  let datatype ← DATATYPEread r
  let (r, s) ← readNext s
  let (width, r, s) ←
    if r.record_type = RT.WIDTH then do
      let v ← WIDTHread r
      let (r2, s2) ← readNext s
      pure (some v, r2, s2)
    else pure (none, r, s)
  let (xs, ys) ← XYread r
  let (props, s) ← readProperties (s.length + 1) s
  .ok ({ layer, datatype, width, x := xs, y := ys, props }, s)

/-!
## Structure and Library readers (src/libgdsii/library.py)
-/

/-- Element-dispatch loop of `Structure.read` (src/libgdsii/library.py
lines 292–313): dispatch on the marker tag, stop at `ENDSTR`; any other
record raises `MissingRecordException(ENDSTR, actual)`; end of stream
ends the `for` loop silently. -/
def readElementsLoop : Nat → List Nat → Except GdsError (List Element × List Nat)
  | 0, _ => .error .fuelExhausted
  | fuel + 1, s =>
    match readNext s with
    | .error .stopIteration => .ok ([], [])
    | .error e => .error e
    | .ok (record, s) =>
      if record.record_type = RT.BOUNDARY then do
        let (el, s) ← readBoundaryElement record s
        let (els, s) ← readElementsLoop fuel s
        .ok (.boundary el :: els, s)
      else if record.record_type = RT.PATH then do
        let (el, s) ← readPathElement record s
        let (els, s) ← readElementsLoop fuel s
        .ok (.path el :: els, s)
      else if record.record_type = RT.SREF then do
        let (el, s) ← readSrefElement record s
        let (els, s) ← readElementsLoop fuel s
        .ok (.sref el :: els, s)
      else if record.record_type = RT.AREF then do
        let (el, s) ← readArefElement record s
        let (els, s) ← readElementsLoop fuel s
        .ok (.aref el :: els, s)
      else if record.record_type = RT.TEXT then do
        let (el, s) ← readTextElement record s
        let (els, s) ← readElementsLoop fuel s
        .ok (.text el :: els, s)
      else if record.record_type = RT.NODE then do
        let (el, s) ← readNodeElement record s
        let (els, s) ← readElementsLoop fuel s
        .ok (.node el :: els, s)
      else if record.record_type = RT.BOX then do
        let (el, s) ← readBoxElement record s
        let (els, s) ← readElementsLoop fuel s
        .ok (.box el :: els, s)
      else if record.record_type = RT.RAITHCIRCLE then do
        let (el, s) ← readRaithCircleElement record s
        let (els, s) ← readElementsLoop fuel s
        .ok (.raithCircle el :: els, s)
      else if record.record_type = RT.ENDSTR then
        .ok ([], s)
      else .error (.missingRecord RT.ENDSTR record.record_type)

/-- `Structure.read` (src/libgdsii/library.py lines 274–315).  Takes the
`BGNSTR` record already in `reader.current`.  The optional `STRCLASS`
handling reads one record, skips a `STRCLASS` by reading one more, and
then calls `reader.revert()` — resuming the element loop from the stream
position before the last read. -/
def structureRead (cur : RawRecord) (s : List Nat) :
    Except GdsError (Structure × List Nat) := do
  let (mod_date, acc_date) ← BGNSTRread cur
  let (r, s) ← readNext s
  let name ← STRNAMEread r
  let (r2, s2) ← readNext s
  let s ←
    if r2.record_type = RT.STRCLASS then do
      let _ ← readNext s2
      pure s2
    else pure s
  let (elements, s) ← readElementsLoop (s.length + 1) s
  .ok ({ mod_date, acc_date, name, elements }, s)

/-- Structure loop of `Library.load_from_file` (src/libgdsii/library.py
lines 155–163): `BGNSTR` starts a structure (stored under its name),
`ENDLIB` breaks, anything else raises
`MissingRecordException(ENDLIB, actual)`; end of stream ends the `for`
loop silently, returning the library read so far. -/
def readStructuresLoop :
    Nat → List Nat → List (String × Structure) →
    Except GdsError (List (String × Structure))
  | 0, _, _ => .error .fuelExhausted
  | fuel + 1, s, acc =>
    match readNext s with
    | .error .stopIteration => .ok acc
    | .error e => .error e
    | .ok (record, s) =>
      if record.record_type = RT.BGNSTR then do
        let (st, s) ← structureRead record s
        readStructuresLoop fuel s (odInsert st.name st acc)
      else if record.record_type = RT.ENDLIB then
        .ok acc
      else .error (.missingRecord RT.ENDLIB record.record_type)

/-- The `if record.record_type is X: warn(...); record = reader.read_next()`
idiom skipping one recognized-but-unsupported metadata record. -/
def skipOptionalRecord (tag : Nat) (r : RawRecord) (s : List Nat) :
    Except GdsError (RawRecord × List Nat) :=
  if r.record_type = tag then readNext s else .ok (r, s)

/-- `Library.load_from_file` (src/libgdsii/library.py lines 101–165):
required `HEADER` and `BGNLIB`; optional `LIBDIRSIZE`, `SRFNAME`,
`LIBSECUR`; required `LIBNAME`; optional `REFLIBS`, `FONTS`, `ATTRTABLE`,
`GENERATIONS`, `FORMAT`; required `UNITS`; then the structure loop. -/
def load_from_file (stream : List Nat) : Except GdsError Library := do
  let (r, s) ← readNext stream
  let version ← HEADERread r
  let (r, s) ← readNext s
  let (mod_date, acc_date) ← BGNLIBread r
  let (r, s) ← readNext s
  let (r, s) ← skipOptionalRecord RT.LIBDIRSIZE r s
  let (r, s) ← skipOptionalRecord RT.SRFNAME r s
  let (r, s) ← skipOptionalRecord RT.LIBSECUR r s
  let name ← LIBNAMEread r
  let (r, s) ← readNext s
  let (r, s) ← skipOptionalRecord RT.REFLIBS r s
  let (r, s) ← skipOptionalRecord RT.FONTS r s
  let (r, s) ← skipOptionalRecord RT.ATTRTABLE r s
  let (r, s) ← skipOptionalRecord RT.GENERATIONS r s
  let (r, s) ← skipOptionalRecord RT.FORMAT r s
  let (logical_unit, physical_unit) ← UNITSread r
  let structures ← readStructuresLoop (s.length + 1) s []
  .ok { version, mod_date, acc_date, name, logical_unit, physical_unit, structures }

/-!
## Hierarchy flattening (the `_draw` methods, src/libgdsii/library.py)

The `_draw` methods walk the structure graph and emit drawing primitives
carrying an accumulated translation offset.  Leaf elements first scale
their database-unit coordinates by `lib.logical_unit * scale`; the model
takes that multiplicative unit factor as 1 (coordinates stay in database
units, as in the duplicated flattener of
src/GDSMetapostConverter/gds_metapost_converter.py, which runs the same
algorithm on unscaled integer coordinates), so all arithmetic is exact
integer arithmetic.  The cairo surface bookkeeping (`layers[...]`) only
groups primitives per layer; each primitive records its layer, so the
model returns the flat emission sequence.  Missing-coordinate indexing
(`x[0]` on an empty array, an `IndexError` in Python) is modelled with
`getD _ 0`; no claim touches that case.
-/

/-- One emitted drawing primitive, tagged with its layer and the
accumulated translation (`ctx.translate(*shift)`). -/
inductive Prim where
  /-- `BoundaryElement._draw`: a filled and stroked closed polygon. -/
  | polygon (layer : ℤ) (offset : ℤ × ℤ) (x y : List ℤ)
  /-- `PathElement._draw`: a stroked polyline with line width
  `self.width` and the raw optional `PATHTYPE` value. -/
  | polyline (layer width : ℤ) (pathtype : Option ℤ) (offset : ℤ × ℤ) (x y : List ℤ)
  /-- `TextElement._draw`: a text label at the element's single
  coordinate pair with the `PRESENTATION` alignment values. -/
  | label (layer : ℤ) (offset pos : ℤ × ℤ) (text : String) (valign halign : Nat)
  /-- `RaithCircleElement._draw`: circle around `center` (the element's
  centre shifted *twice* in the source: both added to `x, y` and applied
  via `ctx.translate`). -/
  | circle (layer : ℤ) (offset center : ℤ × ℤ) (radii : ℤ × ℤ)
      (isEllipse isFilled isArc : Bool)
  /-- `BoxElement._draw`: a filled and stroked closed polygon. -/
  | boxPolygon (layer : ℤ) (offset : ℤ × ℤ) (x y : List ℤ)
deriving DecidableEq

/-- Failures of the drawing walk. -/
inductive DrawError where
  /-- `lib[self.ref_name]` raised `KeyError`: dangling reference. -/
  | keyError (name : String)
  /-- `Element._draw` base method: `NotImplementedError`
  (`NodeElement` defines no `_draw`). -/
  | notImplemented
  /-- `self._PRESENTATION.vertical_alignment` with no `PRESENTATION`
  record: `AttributeError`. -/
  | attributeError
  /-- Modelling artifact standing for Python's `RecursionError`: the
  reference graph is deeper than the supplied fuel. -/
  | recursionLimit
deriving DecidableEq

/-- `RaithCircleElement.is_ellipse` / `is_filled` / `is_arc`: bits 0–2 of
`self._XY.y[3]` (two's complement bits via floor division). -/
def circleFlag (y3 : ℤ) (bit : Nat) : Bool := y3 / 2 ^ bit % 2 = 1

/-- The `_draw` dispatch over one element (with the structure table of the
owning `Library` for reference resolution).  `fuel` bounds the reference
recursion depth, which Python leaves unbounded (a cyclic structure graph
recurses until `RecursionError`). -/
def drawElement (structs : List (String × Structure)) :
    Nat → Element → ℤ × ℤ → Except DrawError (List Prim)
  | 0, _, _ => .error .recursionLimit
  | _, .boundary b, shift => .ok [.polygon b.layer shift b.x b.y]
  | _, .path p, shift =>
    .ok [.polyline p.layer (p.width.getD 0) p.pathtype shift p.x p.y]
  | fuel + 1, .sref r, shift =>
    -- StructureReferenceElement._draw (lines 904–916)
    let x := r.x.getD 0 0 + shift.1
    let y := r.y.getD 0 0 + shift.2
    match odLookup structs r.sname with
    | none => .error (.keyError r.sname)
    | some st => do
      let pss ← st.elements.mapM (fun e => drawElement structs fuel e (x, y))
      .ok pss.flatten
  | fuel + 1, .aref a, shift =>
    -- ArrayReferenceElement._draw (lines 1013–1034)
    let x0 := a.x.getD 0 0 + shift.1
    let y0 := a.y.getD 0 0 + shift.2
    let x1 := a.x.getD 1 0 + shift.1
    let y1 := a.y.getD 1 0 + shift.2
    let x2 := a.x.getD 2 0 + shift.1
    let y2 := a.y.getD 2 0 + shift.2
    match odLookup structs a.sname with
    | none => .error (.keyError a.sname)
    | some st => do
      let rsx := Int.fdiv (x2 - x0) a.n_rows
      let rsy := Int.fdiv (y2 - y0) a.n_rows
      let csx := Int.fdiv (x1 - x0) a.n_cols
      let csy := Int.fdiv (y1 - y0) a.n_cols
      let cells := (List.range a.n_rows.toNat).flatMap (fun i =>
        (List.range a.n_cols.toNat).map (fun j =>
          (x0 + i * rsx + j * csx, y0 + i * rsy + j * csy)))
      let pss ← cells.mapM (fun cell => do
        let ps ← st.elements.mapM (fun e => drawElement structs fuel e cell)
        pure ps.flatten)
      .ok pss.flatten
  | _, .text t, shift =>
    -- TextElement._draw (lines 1263–1296); the alignment getters reach
    -- through `self._PRESENTATION`, raising AttributeError when absent
    match t.body.presentation with
    | none => .error .attributeError
    | some p =>
      .ok [.label t.layer shift (t.body.x.getD 0 0, t.body.y.getD 0 0)
        t.body.text p.vertical_alignment p.horizontal_alignment]
  | _, .node _, _ => .error .notImplemented
  | _, .box b, shift => .ok [.boxPolygon b.layer shift b.x b.y]
  | _, .raithCircle c, shift =>
    .ok [.circle c.layer shift
      (c.x.getD 0 0 + shift.1, c.y.getD 0 0 + shift.2)
      (c.x.getD 1 0, c.y.getD 1 0)
      (circleFlag (c.y.getD 3 0) 0) (circleFlag (c.y.getD 3 0) 1)
      (circleFlag (c.y.getD 3 0) 2)]

/-- `Structure._draw` (src/libgdsii/library.py lines 328–332): draw every
element in order with the default zero shift. -/
def drawStructure (structs : List (String × Structure)) (fuel : Nat)
    (st : Structure) : Except DrawError (List Prim) := do
  let pss ← st.elements.mapM (fun e => drawElement structs fuel e (0, 0))
  .ok pss.flatten

/-!
## Producer-side coordinate setters
(`BoundaryElement.coordinates`, `BoxElement.coordinates`,
`PathElement.width`, src/libgdsii/library.py)

The coordinate array is an `n × 2` numpy integer array, modelled as a
list of pairs (so `xy.shape[1] == 2` holds by construction; the claims
below only exercise that shape).
-/

/-- Outcome of a Python property setter. -/
inductive SetterResult (α : Type) where
  /-- The assignment completed and stored the value. -/
  | ok (a : α)
  /-- `raise RuntimeError()`. -/
  | runtimeError
  /-- numpy `ValueError`: the truth value of an array with more than one
  element is ambiguous. -/
  | valueError
deriving DecidableEq

/-- `BoundaryElement.coordinates` setter (src/libgdsii/library.py
lines 415–419):

`if xy.shape[0] < 4 or xy.shape[1] != 2 or xy[0, :] != xy[-1, :]: raise RuntimeError()`

With at least 4 rows and 2 columns the third disjunct is evaluated:
`xy[0, :] != xy[-1, :]` is an elementwise comparison producing a
*2-element boolean array*, and using it as the condition of `or` asks for
its truth value, which numpy refuses with `ValueError` — whatever the
array contents.  So the setter raises on every `n × 2` ndarray input:
`RuntimeError` for fewer than 4 rows, `ValueError` otherwise.
`BoundaryElement.__init__` assigns through this setter. -/
def BoundaryElement_set_coordinates (xy : List (ℤ × ℤ)) :
    SetterResult (List ℤ × List ℤ) :=
  if xy.length < 4 then .runtimeError
  else .valueError

/-- `BoxElement.coordinates` setter (src/libgdsii/library.py
lines 1428–1432):

`if xy.shape[1] != 2 or xy.shape[0] != 5 or xy[0, :] != xy[-1, :]: RuntimeError()`

The `RuntimeError()` lacks `raise`: when the shape test fails the
exception object is constructed, discarded, and the coordinates are
stored anyway.  With exactly 5 rows the elementwise comparison is reached
and its ambiguous truth value raises `ValueError` (as above). -/
def BoxElement_set_coordinates (xy : List (ℤ × ℤ)) :
    SetterResult (List ℤ × List ℤ) :=
  if xy.length ≠ 5 then .ok (xy.map Prod.fst, xy.map Prod.snd)
  else .valueError

/-- `PathElement.width` getter (src/libgdsii/library.py lines 557–562):
`self._WIDTH.width`, defaulting to 0 when the record is absent. -/
def PathElement_width (p : PathElement) : ℤ := p.width.getD 0

/-- `PathElement.width` setter (src/libgdsii/library.py lines 564–570):
`if width == 0: return` — assigning zero returns immediately without
touching the element; otherwise the `WIDTH` record is updated or
created. -/
def PathElement_set_width (p : PathElement) (w : ℤ) : PathElement :=
  if w = 0 then p else { p with width := some w }

/-!
## Concrete streams used by the theorems
-/

/-- Payload half of a `BGNLIB` / `BGNSTR` record: 2020-01-01 00:00:00 as
six big-endian signed shorts. -/
def gdsDates12 : List Nat := [7, 228, 0, 1, 0, 1, 0, 0, 0, 0, 0, 0]

/-- A stream whose prologue is fully valid (`HEADER` v7, `BGNLIB`,
`LIBNAME "LIB"`, `UNITS`) followed by a record with the unknown
record-type byte 0xFF, then `ENDLIB`. -/
def unknownTagStream : List Nat :=
  [0, 6, 0, 2, 0, 7]
  ++ ([0, 28, 1, 2] ++ gdsDates12 ++ gdsDates12)
  ++ [0, 8, 2, 6, 76, 73, 66, 0]
  ++ ([0, 20, 3, 5] ++ [62, 65, 137, 55, 75, 198, 167, 240] ++ [0, 0, 0, 0, 0, 0, 0, 0])
  ++ [0, 4, 0xFF, 0]
  ++ [0, 4, 4, 0]

/-!
## Helper lemmas
-/

theorem qmul_eq_mul (a b : ℚ) : qmul a b = a * b := by
  rw [qmul, Rat.divInt_eq_div]
  push_cast
  rw [← div_mul_div_comm, Rat.num_div_den, Rat.num_div_den]

theorem qdiv_eq_div (a b : ℚ) : qdiv a b = a / b := by
  have key : ∀ x y z w : ℚ, (x / y) / (z / w) = (x * w) / (y * z) := by
    intro x y z w
    rw [div_eq_mul_inv (x / y), inv_div, div_mul_div_comm]
  rw [qdiv, Rat.divInt_eq_div]
  conv_rhs => rw [← Rat.num_div_den a, ← Rat.num_div_den b, key]
  push_cast
  rfl

theorem qpow16_eq_zpow (k : ℤ) : qpow16 k = (16 : ℚ) ^ k := by
  cases k with
  | ofNat n =>
    rw [qpow16, Rat.divInt_eq_div]
    push_cast
    simp [zpow_natCast]
  | negSucc n =>
    rw [qpow16, Rat.divInt_eq_div, zpow_negSucc]
    push_cast
    rw [one_div]

theorem clog16From_le (fuel : Nat) (q : ℚ) (k j : ℤ) (hjk : k ≤ j)
    (hjf : j ≤ k + fuel) (hq : q ≤ qpow16 j) : q ≤ qpow16 (clog16From fuel q k) := by
  induction fuel generalizing k with
  | zero =>
    have : j = k := by omega
    subst this
    simpa [clog16From] using hq
  | succ fuel ih =>
    rw [clog16From]
    split
    · assumption
    · rename_i hk
      have hne : j ≠ k := by
        rintro rfl
        exact hk hq
      exact ih (k + 1) (by omega) (by push_cast at hjf ⊢; omega)

theorem lt_pow_digits16Aux (fuel n : ℕ) (h : n ≤ fuel) : n < 16 ^ digits16Aux fuel n := by
  induction fuel generalizing n with
  | zero =>
    interval_cases n
    simp [digits16Aux]
  | succ fuel ih =>
    rw [digits16Aux]
    split
    · simpa using by omega
    · rename_i h16
      push_neg at h16
      have hdiv : n / 16 ≤ fuel := by
        have := Nat.div_lt_self (by omega : 0 < n) (by omega : 1 < 16)
        omega
      have := ih (n / 16) hdiv
      have hmod := Nat.mod_lt n (by omega : 0 < 16)
      have hdm := Nat.div_add_mod n 16
      calc n < 16 * (n / 16) + 16 := by omega
        _ = 16 * (n / 16 + 1) := by ring
        _ ≤ 16 * 16 ^ digits16Aux fuel (n / 16) := by
              exact Nat.mul_le_mul_left 16 (by omega)
        _ = 16 ^ (digits16Aux fuel (n / 16) + 1) := by ring

theorem lt_pow_digits16 (n : ℕ) : n < 16 ^ digits16 n :=
  lt_pow_digits16Aux n n le_rfl

theorem le_qpow16_ceilLog16 (q : ℚ) (hq : 0 < q) : q ≤ qpow16 (ceilLog16 q) := by
  rw [ceilLog16]
  apply clog16From_le _ _ _ (digits16 q.num.natAbs : ℤ)
  · omega
  · push_cast
    omega
  · have hnum : 0 < q.num := Rat.num_pos.mpr hq
    have h1 : q ≤ (q.num : ℚ) := by
      conv_lhs => rw [← Rat.num_div_den q]
      apply div_le_self (by positivity)
      exact_mod_cast q.pos
    have h2 : (q.num : ℚ) ≤ 16 ^ digits16 q.num.natAbs := by
      have hlt : ((q.num.natAbs : ℤ) : ℚ) ≤ 16 ^ digits16 q.num.natAbs := by
        exact_mod_cast (lt_pow_digits16 q.num.natAbs).le
      have hcast : (q.num.natAbs : ℤ) = q.num := Int.natAbs_of_nonneg hnum.le
      rw [hcast] at hlt
      exact hlt
    calc q ≤ (q.num : ℚ) := h1
      _ ≤ 16 ^ digits16 q.num.natAbs := h2
      _ = qpow16 (digits16 q.num.natAbs : ℤ) := by
            rw [qpow16_eq_zpow, zpow_natCast]

theorem clearBit7_range (e : ℤ) (h0 : 0 ≤ e) (h255 : e ≤ 255) :
    clearBit7 e = if e < 128 then e else e - 128 := by
  rw [clearBit7]
  split <;> omega

theorem Except_ok_bind {ε α β : Type} (x : α) (f : α → Except ε β) :
    (Except.ok x >>= f : Except ε β) = f x := rfl

/-!
## Claim theorems
-/

/-- Claim C1: the spec demands that `save(load(b))` reproduce every valid
byte stream `b` byte-for-byte for every unmodified record kind.  The code
violates this for the `STRANS` record kind: reading the valid frame
`00 06 1A 01 00 01` (a `STRANS` with only the absolute-angle flag set,
payload `0x0001`) and writing the record back produces
`00 06 1A 01 80 00` (payload `0x8000`), because `STRANS.pack` evaluates
`int(aa) + int(am) << 1 + int(rx) << 14` as `((aa + am) << (1 + rx)) << 14`
under Python operator precedence instead of OR-ing the three bit
positions that `STRANS.read` extracts.  With the reflection flag set
together with another flag the packed value even exceeds 16 bits and
`struct.pack(">H", ...)` raises, so such a library cannot be written back
at all. -/
theorem C1_strans_write_breaks_roundtrip :
    readNext [0x00, 0x06, 0x1A, 0x01, 0x00, 0x01]
        = .ok (⟨RT.STRANS, DT.BIT_ARRAY, [0x00, 0x01]⟩, [])
      ∧ STRANSread ⟨RT.STRANS, DT.BIT_ARRAY, [0x00, 0x01]⟩
        = .ok ⟨false, false, true⟩
      ∧ STRANSwrite ⟨false, false, true⟩
        = .ok [0x00, 0x06, 0x1A, 0x01, 0x80, 0x00]
      ∧ [0x00, 0x06, 0x1A, 0x01, 0x80, 0x00] ≠ [0x00, 0x06, 0x1A, 0x01, 0x00, 0x01]
      ∧ STRANSwrite ⟨true, false, true⟩ = .error .structError := by
  refine ⟨by decide, by decide, by decide, by decide, by decide⟩

/-- Claim C2: flattening the given array reference (reference point
(0,0), column point (300,0), row point (0,200), 3 columns, 2 rows) over a
structure `"cell"` holding a single boundary on layer 5 emits exactly six
boundary primitives on layer 5 at offsets (0,0), (100,0), (200,0),
(0,100), (100,100), (200,100), in row-major order (rows outer, columns
inner): column spacing (300-0)//3 = 100 and row spacing (200-0)//2 = 100
by integer floor division, as in `ArrayReferenceElement._draw`.
Coordinates are in database units (unit scale factor 1). -/
theorem C2_array_flattening (d1 d2 : DateTime) (dt : ℤ) (xs ys : List ℤ) :
    drawElement
        [("cell", { mod_date := d1, acc_date := d2, name := "cell",
                    elements := [.boundary { layer := 5, datatype := dt, x := xs, y := ys }] })]
        2
        (.aref { sname := "cell", n_cols := 3, n_rows := 2, x := [0, 300, 0], y := [0, 0, 200] })
        (0, 0)
      = .ok [.polygon 5 (0, 0) xs ys, .polygon 5 (100, 0) xs ys, .polygon 5 (200, 0) xs ys,
             .polygon 5 (0, 100) xs ys, .polygon 5 (100, 100) xs ys,
             .polygon 5 (200, 100) xs ys] :=
  rfl

/-- Claim C3: a structure reference or array reference carrying any
`Transformation` (reflection flag, magnification, rotation) flattens to
exactly the same primitives as the same reference with the transformation
absent — `StructureReferenceElement._draw` and
`ArrayReferenceElement._draw` never consult `self._TRANSFORMATION`, so
only the accumulated translation is applied to child coordinates. -/
theorem C3_transformation_not_applied (structs : List (String × Structure)) (fuel : Nat)
    (r : SrefElement) (a : ArefElement) (t : StructureTransformation) (shift : ℤ × ℤ) :
    drawElement structs fuel (.sref { r with strans := some t }) shift
        = drawElement structs fuel (.sref { r with strans := none }) shift
      ∧ drawElement structs fuel (.aref { a with strans := some t }) shift
        = drawElement structs fuel (.aref { a with strans := none }) shift := by
  constructor <;> (cases fuel <;> rfl)

/-- Claim C4: the spec demands that constructing a Boundary fail exactly
when the coordinates have fewer than 4 pairs or the first differs from
the last, and succeed otherwise.  The code instead *never* succeeds on an
`n × 2` ndarray: with at least 4 rows the guard evaluates the truth value
of the 2-element boolean array `xy[0, :] != xy[-1, :]`, which numpy
rejects with `ValueError` regardless of the contents — here shown on the
perfectly closed square (0,0), (10,0), (10,10), (0,0); with fewer than 4
rows it raises `RuntimeError` as intended. -/
theorem C4_boundary_setter_always_fails :
    BoundaryElement_set_coordinates [(0, 0), (10, 0), (10, 10), (0, 0)] = .valueError
      ∧ BoundaryElement_set_coordinates [(0, 0), (10, 0), (0, 0)] = .runtimeError
      ∧ ∀ xy, BoundaryElement_set_coordinates xy = .runtimeError
          ∨ BoundaryElement_set_coordinates xy = .valueError := by
  refine ⟨by decide, by decide, ?_⟩
  intro xy
  rw [BoundaryElement_set_coordinates]
  split
  · exact Or.inl rfl
  · exact Or.inr rfl

/-- Claim C5: the spec demands that a Box with a number of coordinate
pairs other than 5 (or an unclosed outline) fail deterministically and
never be silently accepted.  The code's guard lacks `raise`: a 1-pair
input is silently stored (the `RuntimeError()` object is constructed and
discarded), while a well-formed closed 5-pair outline raises `ValueError`
from the ambiguous truth value of the 2-element numpy comparison. -/
theorem C5_box_setter_silently_accepts :
    BoxElement_set_coordinates [(0, 0)] = .ok ([0], [0])
      ∧ BoxElement_set_coordinates [(0, 0), (1, 0), (1, 1), (0, 1), (0, 0)] = .valueError
      ∧ ∀ xy, xy.length ≠ 5 →
          BoxElement_set_coordinates xy = .ok (xy.map Prod.fst, xy.map Prod.snd) := by
  refine ⟨by decide, by decide, ?_⟩
  intro xy h
  rw [BoxElement_set_coordinates, if_pos h]

/-- Claim C5 witness: the general conjunct applied to the concrete 1-pair
input. -/
theorem C5_box_setter_silently_accepts_witness :
    BoxElement_set_coordinates [(0, 0), (1, 1)] = .ok ([0, 1], [0, 1]) :=
  C5_box_setter_silently_accepts.2.2 [(0, 0), (1, 1)] (by decide)

/-- Claim C6: the spec asserts `decode_real(encode_real(v)) = v` for every
`v` in the image of `decode_real`.  The value 1.0 is in that image
(`decode_real(41 10 00 00 00 00 00 00) = 1`), but `encode_real(1)`
chooses exponent `⌈log₁₆ 1⌉ = 0`, so the mantissa `1 · 2⁵⁶` overflows the
seven mantissa bytes; `struct.pack(">Q")` keeps the low 8 bytes and the
leading byte — the only nonzero one — is dropped by `[1:]`.  The result
`40 00 00 00 00 00 00 00` decodes to 0, not 1. -/
theorem C6_roundtrip_fails_at_one :
    eight_byte_real_to_float [0x41, 0x10, 0, 0, 0, 0, 0, 0] = .ok 1
      ∧ float_to_eight_byte_real 1 = .ok [0x40, 0, 0, 0, 0, 0, 0, 0]
      ∧ eight_byte_real_to_float [0x40, 0, 0, 0, 0, 0, 0, 0] = .ok 0
      ∧ (1 : ℚ) ≠ 0 := by
  refine ⟨by decide, by decide, by decide, by decide⟩

/-- Claim C7 counterexample: the spec asserts `encode_real` never raises
and always returns 8 bytes, for arbitrary doubles.  For the normal double
`16⁻⁶⁵ = 2⁻²⁶⁰` (≈ 5.4e-79) the biased exponent is `-65 + 64 = -1`,
`exponent &= ~(1 << 7)` turns it into `-129`, and `struct.pack(">B")`
raises `struct.error`.  (NaN and the infinities also raise — `int(nan)` /
`int(inf)` — but lie outside the exact-rational model of doubles.) -/
theorem C7_encode_raises_counterexample :
    float_to_eight_byte_real (Rat.divInt 1 (16 ^ 65)) = .error .structError := by
  decide

/-- Claim C7 (amended): `encode_real` returns exactly 8 bytes without
raising for zero and for every nonzero double `v` whose excess-64
exponent `⌈log₁₆ |v|⌉ + 64` lies in [0, 255]. -/
theorem C7_encode_eight_bytes_in_range (v : ℚ)
    (h : v = 0 ∨ (0 ≤ ceilLog16 |v| + 64 ∧ ceilLog16 |v| + 64 ≤ 255)) :
    ∃ bs, float_to_eight_byte_real v = .ok bs ∧ bs.length = 8 := by
  by_cases hv : v = 0
  · subst hv
    refine ⟨natToBytesBE 8 0, by rw [float_to_eight_byte_real]; rfl, by simp [natToBytesBE]⟩
  · obtain ⟨hr0, hr255⟩ := h.resolve_left hv
    have habs : (if v < 0 then -v else v) = |v| := by
      split
      · rename_i hlt
        rw [abs_of_neg hlt]
      · rename_i hge
        rw [abs_of_nonneg (le_of_not_lt hge)]
    have hvpos : 0 < |v| := abs_pos.mpr hv
    have hMval : qmul (qdiv |v| (qpow16 (ceilLog16 |v|))) (Rat.divInt (2 ^ 56) 1)
        = |v| / 16 ^ ceilLog16 |v| * 2 ^ 56 := by
      rw [qmul_eq_mul, qdiv_eq_div, qpow16_eq_zpow, Rat.divInt_eq_div]
      norm_num
    have h16pos : (0 : ℚ) < 16 ^ ceilLog16 |v| := by positivity
    have hMle : |v| / 16 ^ ceilLog16 |v| * 2 ^ 56 ≤ 2 ^ 56 := by
      have hle1 : |v| / 16 ^ ceilLog16 |v| ≤ 1 := by
        rw [div_le_one h16pos]
        have := le_qpow16_ceilLog16 |v| hvpos
        rwa [qpow16_eq_zpow] at this
      nlinarith
    have hMpos : 0 < |v| / 16 ^ ceilLog16 |v| * 2 ^ 56 := by positivity
    have hfl0 : 0 ≤ ⌊qmul (qdiv |v| (qpow16 (ceilLog16 |v|))) (Rat.divInt (2 ^ 56) 1)⌋ := by
      rw [hMval]
      exact Int.floor_nonneg.mpr hMpos.le
    have hfl64 : ⌊qmul (qdiv |v| (qpow16 (ceilLog16 |v|))) (Rat.divInt (2 ^ 56) 1)⌋ < 2 ^ 64 := by
      rw [hMval]
      have h1 : ⌊|v| / 16 ^ ceilLog16 |v| * 2 ^ 56⌋ ≤ ⌊((2 ^ 56 : ℤ) : ℚ)⌋ := by
        apply Int.floor_le_floor
        push_cast
        exact hMle
      rw [Int.floor_intCast] at h1
      omega
    have hX : 0 ≤ clearBit7 (ceilLog16 |v| + 64) ∧ clearBit7 (ceilLog16 |v| + 64) ≤ 127 := by
      rw [clearBit7_range _ hr0 hr255]
      split <;> omega
    rw [float_to_eight_byte_real]
    rw [if_neg hv]
    simp only [habs]
    split
    all_goals
      rw [packU8, if_pos (by omega)]
      rw [Except_ok_bind]
      rw [packU64, if_pos ⟨hfl0, hfl64⟩]
      rw [Except_ok_bind]
      refine ⟨_, rfl, ?_⟩
      simp [natToBytesBE]

/-- Claim C7 witness: the amended theorem applied at the in-range double
3 (⌈log₁₆ 3⌉ + 64 = 65). -/
theorem C7_encode_eight_bytes_in_range_witness :
    ∃ bs, float_to_eight_byte_real 3 = .ok bs ∧ bs.length = 8 :=
  C7_encode_eight_bytes_in_range 3 (Or.inr (by decide))

/-- Claim C8: `decode_real` on the bytes 3E 41 89 37 4B C6 A7 F0 returns
exactly the double written `0.001` (the rational
`0x10624DD2F1A9FC · 2⁻⁶²`), and `encode_real` maps that double back to
exactly those 8 bytes, as asserted by tests/test_utils.py. -/
theorem C8_example_0_001 :
    eight_byte_real_to_float [0x3E, 0x41, 0x89, 0x37, 0x4B, 0xC6, 0xA7, 0xF0]
        = .ok double001
      ∧ float_to_eight_byte_real double001
        = .ok [0x3E, 0x41, 0x89, 0x37, 0x4B, 0xC6, 0xA7, 0xF0] := by
  refine ⟨by decide, by decide⟩

/-- Claim C9: during load, a record whose record-type byte lies outside
the closed enumeration (0x00–0x3B plus the vendor tag 0x56) aborts the
read with `UnknownRecordException` identifying the tag value: (a) for any
stream position, `Reader.__next__` on a frame whose type byte is unknown
returns exactly that error and yields no record; (b) a library stream
whose prologue is fully valid but which carries a 0xFF-tagged record
mid-stream makes `Library.load_from_file` fail with
`UnknownRecordException(0xFF)` — no `Library` value is produced. -/
theorem C9_unknown_record_aborts_load :
    (∀ s : List Nat, 4 ≤ s.length → isKnownRecordType (s.getD 2 0) = false →
      readNext s = .error (.unknownRecordType (s.getD 2 0)))
      ∧ load_from_file unknownTagStream = .error (.unknownRecordType 0xFF) := by
  constructor
  · intro s hlen hunk
    match s, hlen with
    | b0 :: b1 :: b2 :: b3 :: rest, _ =>
      simp only [List.getD_cons_succ, List.getD_cons_zero] at hunk ⊢
      rw [readNext]
      rw [if_neg (by simp [hunk])]
  · decide

/-- Claim C9 witness: the reader-level conjunct applied to a minimal
frame with type byte 0xFF. -/
theorem C9_unknown_record_aborts_load_witness :
    readNext [0, 4, 0xFF, 0] = .error (.unknownRecordType 0xFF) :=
  C9_unknown_record_aborts_load.1 [0, 4, 0xFF, 0] (by decide) (by decide)

/-- Claim C10: assigning width 0 to a `PathElement` whose width reads as a
nonzero value is a silent no-op — the setter returns immediately on
`width == 0`, so the element is unchanged and its width still reads the
old value. -/
theorem C10_path_width_zero_assignment_noop (p : PathElement)
    (_h : PathElement_width p ≠ 0) :
    PathElement_set_width p 0 = p
      ∧ PathElement_width (PathElement_set_width p 0) = PathElement_width p := by
  refine ⟨?_, ?_⟩ <;> rw [PathElement_set_width, if_pos rfl]

/-- Claim C10 witness: a concrete path of width 5. -/
theorem C10_path_width_zero_assignment_noop_witness :
    PathElement_set_width
        { layer := 1, datatype := 0, width := some 5, x := [0, 7], y := [0, 7] } 0
      = { layer := 1, datatype := 0, width := some 5, x := [0, 7], y := [0, 7] }
      ∧ PathElement_width (PathElement_set_width
          { layer := 1, datatype := 0, width := some 5, x := [0, 7], y := [0, 7] } 0)
        = PathElement_width
            ({ layer := 1, datatype := 0, width := some 5, x := [0, 7], y := [0, 7] } : PathElement) :=
  C10_path_width_zero_assignment_noop
    { layer := 1, datatype := 0, width := some 5, x := [0, 7], y := [0, 7] } (by decide)
